import Mathlib

/-
Verification of the offer-ingestion pipeline (FastAPI + Celery backend).

Shallow embedding of the code under src/:
  * src/core/openai_client.py : clean_product_data, convert_price_to_eur and
    the per-product EUR-conversion loop of extract_offer,
  * src/workers/processor.py  : is_valid_offer, _safe_float, the safe_data
    construction of OfferItem records, and the validation/dedup/persist
    control flow of process_offer,
  * src/api/results.py        : get_result.

Python floats are modelled as rationals, Python None via Option, raw
JSON-ish scalar values via PyVal.  Dictionaries returned by the extraction
oracle are modelled as records whose fields are the fields the pipeline
logic reads; fields that are merely copied through and never branched on
(brand, incoterm, dates, provenance, ...) are omitted from the records but
their handling is identical to the retained string fields.
-/

namespace OfferPipeline

/-- Scalar value of a raw candidate field as produced by the extraction
oracle: a JSON string, a JSON number, or JSON null. -/
inductive PyVal where
  | pStr : String → PyVal
  | pNum : ℚ → PyVal
  | pNone : PyVal
deriving DecidableEq

/-- Raw candidate record (an untyped field dictionary); a field holding
none models the key being absent from the dictionary. -/
structure RawProduct where
  product_key : Option PyVal := none
  product_name : Option PyVal := none
  refillable_status : Option PyVal := none
  currency : Option PyVal := none
  alcohol_percent : Option PyVal := none
  unit_volume_ml : Option PyVal := none
  units_per_case : Option PyVal := none
  cases_per_pallet : Option PyVal := none
  quantity_case : Option PyVal := none
  moq_cases : Option PyVal := none
  price_per_unit : Option PyVal := none
  price_per_case : Option PyVal := none
  price_per_unit_eur : Option PyVal := none
  price_per_case_eur : Option PyVal := none
deriving DecidableEq

/-- Digit list to a natural number (used by the float-literal parser). -/
def digitsVal (l : List Char) : ℚ :=
  l.foldl (fun n c => n * 10 + ((c.toNat - 48 : ℕ) : ℚ)) 0

/-- Model of the Python float(str) conversion on decimal literals:
optional sign, integer digits, optional fractional digits.  Any other
character (such as the percent sign) makes the conversion fail, as
float("43%") raises ValueError. -/
def parseFloat? (s : String) : Option ℚ :=
  let cs := s.toList
  let signAndRest : ℚ × List Char :=
    match cs with
    | '-' :: t => (-1, t)
    | '+' :: t => (1, t)
    | _ => (1, cs)
  let sign := signAndRest.1
  let rest := signAndRest.2
  let intPart := rest.takeWhile (fun c => c.isDigit)
  let rest2 := rest.dropWhile (fun c => c.isDigit)
  match rest2 with
  | [] => if intPart.isEmpty then none else some (sign * digitsVal intPart)
  | '.' :: frac =>
      if frac.all (fun c => c.isDigit) && !(intPart.isEmpty && frac.isEmpty) then
        some (sign * (digitsVal intPart + digitsVal frac / (10 ^ frac.length)))
      else none
  | _ => none

/-- Membership test value in [None, "Not Found", "", "null", 0, "0"] from
clean_product_data (openai_client.py line 1271). -/
def isZeroLike (v : PyVal) : Bool :=
  match v with
  | .pNone => true
  | .pNum q => q = 0
  | .pStr s => s = "Not Found" || s = "" || s = "null" || s = "0"

/-- Python float(value) on a raw scalar: numbers pass through, strings are
parsed, float(None) raises (modelled as none). -/
def pyFloat? (v : PyVal) : Option ℚ :=
  match v with
  | .pNum q => some q
  | .pStr s => parseFloat? s
  | .pNone => none

/-- Python str(value) on a raw scalar (string formatting of numbers is not
load-bearing for any claim; no claim path sends a number through it). -/
def pyStr (v : PyVal) : String :=
  match v with
  | .pStr s => s
  | .pNum q => toString q
  | .pNone => "None"

/-- Per-field cleaning of a numeric schema field in clean_product_data:
absent key takes the default (None for numeric fields), a zero-like value
takes the default, anything else goes through float() with failures
becoming None (openai_client.py lines 1267-1295). -/
def cleanNumeric (v : Option PyVal) : Option ℚ :=
  match v with
  | none => none
  | some pv => if isZeroLike pv then none else pyFloat? pv

/-- Per-field cleaning of a string schema field in clean_product_data with
its schema default d: absent key or zero-like value takes d, anything else
goes through str() (openai_client.py lines 1267-1295). -/
def cleanString (d : String) (v : Option PyVal) : String :=
  match v with
  | none => d
  | some pv => if isZeroLike pv then d else pyStr pv

/-- Single-character str.replace (the patterns of the key derivation are
all single characters, so str.replace is a character map). -/
def replaceChar (pat rep : Char) (s : String) : String :=
  String.mk (s.toList.map fun c => if c = pat then rep else c)

/-- Single-character str.replace with the empty replacement: a filter. -/
def stripChar (pat : Char) (s : String) : String :=
  String.mk (s.toList.filter fun c => c ≠ pat)

/-- Python str.upper as a character map. -/
def upperString (s : String) : String :=
  String.mk (s.toList.map Char.toUpper)

/-- Python str.lower as a character map. -/
def lowerString (s : String) : String :=
  String.mk (s.toList.map Char.toLower)

/-- Prefix test on character lists. -/
def startsWithList : List Char → List Char → Bool
  | [], _ => true
  | _ :: _, [] => false
  | p :: ps, c :: cs => p = c && startsWithList ps cs

/-- Python str.startswith. -/
def pyStartsWith (s pat : String) : Bool :=
  startsWithList pat.toList s.toList

/-- Derivation of product_key from product_name
(openai_client.py lines 1298-1300): replace spaces, slashes and ampersands
by underscores, strip dots, uppercase. -/
def deriveKey (name : String) : String :=
  upperString (stripChar '.' (replaceChar '&' '_' (replaceChar '/' '_' (replaceChar ' ' '_' name))))

/-- Cleaned candidate record: the typed output of clean_product_data.
Numeric fields are float-or-None, string fields are strings. -/
structure CleanedProduct where
  product_key : String
  product_name : String
  refillable_status : String
  currency : String
  alcohol_percent : Option ℚ
  unit_volume_ml : Option ℚ
  units_per_case : Option ℚ
  cases_per_pallet : Option ℚ
  quantity_case : Option ℚ
  moq_cases : Option ℚ
  price_per_unit : Option ℚ
  price_per_case : Option ℚ
  price_per_unit_eur : Option ℚ
  price_per_case_eur : Option ℚ
deriving DecidableEq

/-- The final pass of clean_product_data (lines 1303-1311): for the listed
numeric fields a value equal to 0 is replaced by None. -/
def dropZero (v : Option ℚ) : Option ℚ :=
  if v = some 0 then none else v

/-- First stage of clean_product_data (openai_client.py lines 1216-1295):
per-field schema defaulting with zero-like detection.  Schema defaults
follow lines 1216-1263: "Not Found" for plain strings, "NRF" for
refillable_status, "EUR" for currency, None for numeric fields. -/
def cleanSchema (r : RawProduct) : CleanedProduct :=
  { product_key := cleanString "Not Found" r.product_key
    product_name := cleanString "Not Found" r.product_name
    refillable_status := cleanString "NRF" r.refillable_status
    currency := cleanString "EUR" r.currency
    alcohol_percent := cleanNumeric r.alcohol_percent
    unit_volume_ml := cleanNumeric r.unit_volume_ml
    units_per_case := cleanNumeric r.units_per_case
    cases_per_pallet := cleanNumeric r.cases_per_pallet
    quantity_case := cleanNumeric r.quantity_case
    moq_cases := cleanNumeric r.moq_cases
    price_per_unit := cleanNumeric r.price_per_unit
    price_per_case := cleanNumeric r.price_per_case
    price_per_unit_eur := cleanNumeric r.price_per_unit_eur
    price_per_case_eur := cleanNumeric r.price_per_case_eur }

/-- Second stage of clean_product_data (lines 1297-1301): the product_key
derivation guard.  The guard checks the already-cleaned key against
["", None]; cleaned values are strings, so only "" can match. -/
def fixProductKey (c : CleanedProduct) : CleanedProduct :=
  if c.product_key = "" ∧ ¬ c.product_name = "" then
    { c with product_key := deriveKey c.product_name }
  else c

/-- Third stage of clean_product_data (lines 1303-1311): the
numeric_fields_never_zero pass. -/
def neverZeroPass (c : CleanedProduct) : CleanedProduct :=
  { c with
      cases_per_pallet := dropZero c.cases_per_pallet
      quantity_case := dropZero c.quantity_case
      moq_cases := dropZero c.moq_cases
      alcohol_percent := dropZero c.alcohol_percent
      unit_volume_ml := dropZero c.unit_volume_ml
      units_per_case := dropZero c.units_per_case }

/-- Embedding of clean_product_data (openai_client.py lines 1214-1313):
schema defaulting with zero-like detection, then the product_key
derivation guard, then the never-zero pass. -/
def clean_product_data (r : RawProduct) : CleanedProduct :=
  neverZeroPass (fixProductKey (cleanSchema r))

/-- Embedding of convert_price_to_eur (openai_client.py lines 56-66) on a
cleaned price value (float-or-None; the string cases of the Python guard
cannot occur after cleaning).  Python round(x, 2) is modelled as rounding
x*100 to the nearest integer. -/
def round2 (q : ℚ) : ℚ :=
  ((round (q * 100) : ℤ) : ℚ) / 100

def convert_price_to_eur (price : Option ℚ) (exchange_rate : ℚ) : Option ℚ :=
  match price with
  | none => none
  | some q => if q = 0 then none else some (round2 (q * exchange_rate))

/-- Embedding of the per-product EUR-conversion loop of extract_offer
(openai_client.py lines 449-477): identity copy when the currency is
"Not Found", "", None or "EUR"; otherwise each price field outside the
skip list [None, "Not Found", "", 0, "0"] is converted with the resolved
rate.  Cleaned currencies are strings, cleaned prices float-or-None. -/
def convertPrices (exchange_rate : ℚ) (p : CleanedProduct) : CleanedProduct :=
  if p.currency = "Not Found" ∨ p.currency = "" ∨ p.currency = "EUR" then
    { p with
        price_per_unit_eur := p.price_per_unit
        price_per_case_eur := p.price_per_case }
  else
    { p with
        price_per_unit_eur :=
          if p.price_per_unit = none ∨ p.price_per_unit = some 0 then
            p.price_per_unit_eur
          else convert_price_to_eur p.price_per_unit exchange_rate
        price_per_case_eur :=
          if p.price_per_case = none ∨ p.price_per_case = some 0 then
            p.price_per_case_eur
          else convert_price_to_eur p.price_per_case exchange_rate }

/-- Offer record as seen by the validation/dedup gate: the dictionary
obtained from OfferItem.model_dump in process_offer.  Fields are optional
to model dict.get returning None on a missing key (is_valid_offer is a
plain dictionary function); the records built by the processor always
populate them. -/
structure OfferDict where
  product_name : Option String := none
  product_key : Option String := none
  refillable_status : Option String := none
  currency : Option String := none
  alcohol_percent : Option ℚ := none
  unit_volume_ml : Option ℚ := none
  units_per_case : Option ℚ := none
  cases_per_pallet : Option ℚ := none
  quantity_case : Option ℚ := none
  moq_cases : Option ℚ := none
  price_per_unit : Option ℚ := none
  price_per_case : Option ℚ := none
  price_per_unit_eur : Option ℚ := none
  price_per_case_eur : Option ℚ := none
deriving DecidableEq

/-- Python truthiness fallback x or d for strings. -/
def pyOr (s d : String) : String :=
  if s = "" then d else s

/-- Embedding of _safe_float (processor.py lines 45-57) applied to a
cleaned value, which is float-or-None: None takes the default, a float
passes through (the "" / "Not Found" / unparsable cases of the Python
function cannot occur on cleaned values). -/
def safe_float (v : Option ℚ) (default : ℚ) : ℚ :=
  v.getD default

/-- Embedding of the safe_data construction plus OfferItem instantiation
of process_offer (processor.py lines 152-265): string fields get
truthiness defaults, unit_volume_ml / units_per_case and the four price
fields go through _safe_float with default 0, cases_per_pallet /
quantity_case / moq_cases pass through (their numeric-conversion loop is
the identity on float-or-None values), alcohol_percent passes through. -/
def mkOffer (m : CleanedProduct) : OfferDict :=
  { product_name := some (pyOr m.product_name "Not Found")
    product_key := some (pyOr m.product_key "Not Found")
    refillable_status := some (pyOr m.refillable_status "")
    currency := some (pyOr m.currency "EUR")
    alcohol_percent := m.alcohol_percent
    unit_volume_ml := some (safe_float m.unit_volume_ml 0)
    units_per_case := some (safe_float m.units_per_case 0)
    cases_per_pallet := m.cases_per_pallet
    quantity_case := m.quantity_case
    moq_cases := m.moq_cases
    price_per_unit := some (safe_float m.price_per_unit 0)
    price_per_case := some (safe_float m.price_per_case 0)
    price_per_unit_eur := some (safe_float m.price_per_unit_eur 0)
    price_per_case_eur := some (safe_float m.price_per_case_eur 0) }

/-- Embedding of is_valid_offer (processor.py lines 17-42).  The leading
"if not offer_dict" emptiness test is subsumed: an empty dictionary has no
product_name and is rejected by the first check. -/
def is_valid_offer (o : OfferDict) : Bool :=
  match o.product_name with
  | none => false
  | some name =>
    if name = "" ∨ name = "Not Found" ∨ name = "Unknown" ∨ name = "Row" then false
    else if pyStartsWith (lowerString name) "row " then false
    else if (o.price_per_unit = none ∨ o.price_per_unit = some 0) ∧
            (o.price_per_case = none ∨ o.price_per_case = some 0) then false
    else true

/-- The dedup key read in process_offer line 271: offer_dict.get of
product_key with the empty string as fallback. -/
def keyOf (o : OfferDict) : String :=
  o.product_key.getD ""

/-- Mutable state of the validation/dedup loop of process_offer:
offers, processed_keys, valid_count, duplicate_count. -/
structure ProcState where
  offers : List OfferDict
  seen : List String
  validCount : ℕ
  duplicateCount : ℕ
deriving DecidableEq

/-- One iteration of the validation/dedup loop (processor.py lines
269-292): validation first; a valid offer whose key is unseen is appended
and its key recorded, a valid offer with a seen key only increments
duplicate_count, an invalid offer changes nothing. -/
def processStep (st : ProcState) (o : OfferDict) : ProcState :=
  if is_valid_offer o then
    if keyOf o ∈ st.seen then
      { st with duplicateCount := st.duplicateCount + 1 }
    else
      { st with
          offers := st.offers ++ [o]
          seen := st.seen ++ [keyOf o]
          validCount := st.validCount + 1 }
  else st

/-- The whole validation/dedup loop over the candidate list, from the
empty initial state of process_offer lines 64-67 and 140. -/
def processProducts (l : List OfferDict) : ProcState :=
  l.foldl processStep ⟨[], [], 0, 0⟩

/-- Outcome of the inline-text extraction call (processor.py lines 75-88):
either the call raised, or it returned a dictionary with a products list
(extract_offer always returns the products shape, line 484 of
openai_client.py).  The products are already cleaned and EUR-converted by
extract_offer before the processor sees them. -/
inductive TextResult where
  | err : TextResult
  | products : List CleanedProduct → TextResult
deriving DecidableEq

/-- Outcome of processing one attachment (processor.py lines 90-137):
the iteration raised (resolve/extract failure), the bytes could not be
resolved (continue), extract_from_file returned an error dictionary
(which has no products key and contributes no candidate), or it returned
a products list. -/
inductive AttachResult where
  | err : AttachResult
  | noBytes : AttachResult
  | errorDict : AttachResult
  | products : List CleanedProduct → AttachResult
deriving DecidableEq

/-- Candidates contributed by the inline text (lines 75-88). -/
def gatherText (t : Option TextResult) : List CleanedProduct :=
  match t with
  | none => []
  | some .err => []
  | some (.products l) => l

/-- Candidates contributed by the attachment loop (lines 90-137): failed,
byte-less and error-dictionary attachments contribute nothing and the
loop continues with the rest. -/
def gatherAttach (l : List AttachResult) : List CleanedProduct :=
  l.flatMap fun a =>
    match a with
    | .err => []
    | .noBytes => []
    | .errorDict => []
    | .products ps => ps

/-- Input of one process_offer run.  constructOk models whether the
OfferItem construction for a candidate succeeds (a pydantic validation
error is caught per candidate, lines 294-297); singleConstructOk models
the same for the single-product block (lines 301-420); persistRaises
models an exception escaping to the outer handler (lines 467-484), such
as the final set_job_result raising. -/
structure JobInput where
  text : Option TextResult
  attachments : List AttachResult
  constructOk : CleanedProduct → Bool
  singleConstructOk : Bool
  persistRaises : Bool

/-- The ordered candidate list of a run: text candidates first, then the
attachments in submission order (processor.py lines 75-137). -/
def allProducts (inp : JobInput) : List CleanedProduct :=
  gatherText inp.text ++ gatherAttach inp.attachments

/-- The offer dictionary built by the single-product path from an
extracted_data dictionary holding no schema fields (lines 302-345 with
every get returning None): every default fires and every numeric
_safe_float yields its default. -/
def singleOffer : OfferDict :=
  { product_name := some "Not Found"
    product_key := some "Not Found"
    refillable_status := some ""
    currency := some "EUR"
    alcohol_percent := none
    unit_volume_ml := some 0
    units_per_case := some 0
    cases_per_pallet := none
    quantity_case := none
    moq_cases := none
    price_per_unit := some 0
    price_per_case := some 0
    price_per_unit_eur := some 0
    price_per_case_eur := some 0 }

/-- The persisted result payload: its own status field, the products list
when one is written (the partial_success payload of lines 428-442 and the
failure payload of lines 471-482 carry none), and duplicate_count. -/
structure StoredResult where
  resultStatus : String
  products : Option (List OfferDict)
  duplicateCount : ℕ
deriving DecidableEq

/-- Final observable job state: the status written through
set_job_status and the persisted result payload. -/
structure JobFinal where
  jobStatus : String
  result : StoredResult
deriving DecidableEq

/-- Embedding of the terminal behaviour of process_offer (processor.py
lines 60-484).  An exception escaping to the outer handler persists a
failure payload and sets status failed; otherwise, when the candidate
list is non-empty the multi-product path validates, deduplicates and
persists with status done; when it is empty the single-product path
either persists its (necessarily invalid) offer set with status done, or,
if the construction block raises, persists a partial_success payload and
still sets status done (lines 424-447). -/
def process_offer (inp : JobInput) : JobFinal :=
  if inp.persistRaises then
    ⟨"failed", ⟨"failed", none, 0⟩⟩
  else
    let all := allProducts inp
    if all.isEmpty then
      if inp.singleConstructOk then
        if is_valid_offer singleOffer then
          ⟨"done", ⟨"done", some [singleOffer], 0⟩⟩
        else
          ⟨"done", ⟨"done", some [], 0⟩⟩
      else
        ⟨"done", ⟨"partial_success", none, 0⟩⟩
    else
      let r := processProducts ((all.filter inp.constructOk).map mkOffer)
      ⟨"done", ⟨"done", some r.offers, r.duplicateCount⟩⟩

/-- Response of the polling endpoint: the reported status and the
optional message field. -/
structure PollResponse where
  status : String
  message : Option String
deriving DecidableEq

/-- Embedding of get_result (src/api/results.py lines 10-44).  The job
store is read through the stored status (none when the status key is
absent, which makes job_exists false) and the stored result payload
(modelled as a key-value list; None and the empty dictionary are falsy).
A 404 is an error value. -/
def get_result (jobStatus : Option String) (jobResult : Option (List (String × String))) :
    Except ℕ PollResponse :=
  match jobStatus with
  | none => .error 404
  | some st =>
    if st ≠ "done" then
      .ok ⟨st, none⟩
    else
      match jobResult with
      | none => .ok ⟨"processing", some "Result not yet available"⟩
      | some r =>
        if r.isEmpty then .ok ⟨"processing", some "Result not yet available"⟩
        else .ok ⟨"done", none⟩

/-- Spec-side predicate of the validation gate: product_name is present
and is not a placeholder value (not the absent sentinel, not one of the
reserved unknown strings, not a generic Row N filler). -/
def namePresentNotPlaceholder (o : OfferDict) : Prop :=
  ∃ n, o.product_name = some n ∧ n ≠ "" ∧ n ≠ "Not Found" ∧ n ≠ "Unknown" ∧ n ≠ "Row" ∧
    pyStartsWith (lowerString n) "row " = false

/-- Spec-side predicate of the validation gate: at least one of
price_per_unit or price_per_case is present and non-zero. -/
def hasPriceSignal (o : OfferDict) : Prop :=
  (∃ q, o.price_per_unit = some q ∧ q ≠ 0) ∨ (∃ q, o.price_per_case = some q ∧ q ≠ 0)

/-- Raw values the sentinel claim ranges over: absent, the number 0, the
string "0", and the empty string. -/
def absentish (v : Option PyVal) : Prop :=
  v = none ∨ v = some (.pNum 0) ∨ v = some (.pStr "0") ∨ v = some (.pStr "")

/-- Completely empty raw candidate (every key absent). -/
def rawEmpty : RawProduct := {}

/-- Raw candidate with a product name and a unit price, no product_key. -/
def rawVodkaPriced : RawProduct :=
  { product_name := some (.pStr "Vodka"), price_per_unit := some (.pNum 5) }

/-- Raw candidate with the same product name but no price data. -/
def rawVodkaNoPrice : RawProduct :=
  { product_name := some (.pStr "Vodka") }

/-- Offer built by the pipeline from rawVodkaPriced (EUR currency, so the
conversion step is the identity copy; the rate argument is unused). -/
def c2OfferA : OfferDict :=
  mkOffer (convertPrices 1 (clean_product_data rawVodkaPriced))

/-- Offer built by the pipeline from rawVodkaNoPrice; it shares the
product_key of c2OfferA but fails validation (no price signal). -/
def c2OfferB : OfferDict :=
  mkOffer (convertPrices 1 (clean_product_data rawVodkaNoPrice))

/-- Job input feeding the two same-key candidates to the processor. -/
def c2wInput : JobInput :=
  { text := some (.products [convertPrices 1 (clean_product_data rawVodkaPriced),
                             convertPrices 1 (clean_product_data rawVodkaNoPrice)])
    attachments := []
    constructOk := fun _ => true
    singleConstructOk := true
    persistRaises := false }

/-- Raw candidate with a non-EUR currency and a present unit price. -/
def rawUSD : RawProduct :=
  { product_name := some (.pStr "Vodka"), currency := some (.pStr "USD"),
    price_per_unit := some (.pNum 10) }

/-- Job input with no sources and a raising single-product construction
block: an unrecoverable exception before any record is accepted. -/
def c5Input : JobInput :=
  { text := none
    attachments := []
    constructOk := fun _ => true
    singleConstructOk := false
    persistRaises := false }

/-- Job input with one good attachment followed by one attachment whose
processing raises. -/
def c6Input : JobInput :=
  { text := some (.products [convertPrices 1 (clean_product_data rawVodkaPriced)])
    attachments := [AttachResult.products [convertPrices 1 (clean_product_data rawVodkaPriced)],
                    AttachResult.err]
    constructOk := fun _ => true
    singleConstructOk := true
    persistRaises := false }

/-- Raw candidate with a product name and no product_key. -/
def rawAbsolut : RawProduct :=
  { product_name := some (.pStr "Absolut Vodka") }

/-- Raw candidate whose product_key is explicitly the empty string. -/
def rawAbsolutEmptyKey : RawProduct :=
  { product_name := some (.pStr "Absolut Vodka"), product_key := some (.pStr "") }

/-- Raw candidate whose alcohol value is the formatted percentage string. -/
def rawAlcPct : RawProduct :=
  { alcohol_percent := some (.pStr "43%") }

/-- Raw candidate whose alcohol value is the bare number 43. -/
def rawAlcNum : RawProduct :=
  { alcohol_percent := some (.pNum 43) }

/-- Raw candidate whose refillable_status is present but blank. -/
def rawBlankRef : RawProduct :=
  { refillable_status := some (.pStr "") }

/-! Helper lemmas. -/

/-- Projections of clean_product_data on the nine numeric fields of the
sentinel claim: the four price fields are exactly cleanNumeric, the other
five additionally pass through dropZero. -/
theorem clean_numeric_fields (r : RawProduct) :
    (clean_product_data r).price_per_unit = cleanNumeric r.price_per_unit ∧
    (clean_product_data r).price_per_case = cleanNumeric r.price_per_case ∧
    (clean_product_data r).price_per_unit_eur = cleanNumeric r.price_per_unit_eur ∧
    (clean_product_data r).price_per_case_eur = cleanNumeric r.price_per_case_eur ∧
    (clean_product_data r).unit_volume_ml = dropZero (cleanNumeric r.unit_volume_ml) ∧
    (clean_product_data r).units_per_case = dropZero (cleanNumeric r.units_per_case) ∧
    (clean_product_data r).cases_per_pallet = dropZero (cleanNumeric r.cases_per_pallet) ∧
    (clean_product_data r).quantity_case = dropZero (cleanNumeric r.quantity_case) ∧
    (clean_product_data r).moq_cases = dropZero (cleanNumeric r.moq_cases) := by
  refine ⟨?_, ?_, ?_, ?_, ?_, ?_, ?_, ?_, ?_⟩ <;>
    · unfold clean_product_data neverZeroPass fixProductKey cleanSchema
      split <;> rfl

/-- A cleanNumeric result on an absent-like raw value is always none. -/
theorem cleanNumeric_absentish (v : Option PyVal) (h : absentish v) :
    cleanNumeric v = none := by
  rcases h with h | h | h | h <;> subst h <;> decide

/-- An optional price fails the emptiness test of is_valid_offer exactly
when it holds a non-zero value. -/
theorem price_empty_iff (p : Option ℚ) :
    ¬(p = none ∨ p = some 0) ↔ ∃ q, p = some q ∧ q ≠ 0 := by
  cases p <;> simp

/-- Any run whose exception does not escape to the outer handler ends
with job status done. -/
theorem process_offer_done (inp : JobInput) (h : inp.persistRaises = false) :
    (process_offer inp).jobStatus = "done" := by
  unfold process_offer
  rw [h]
  simp only [Bool.false_eq_true, if_false]
  split_ifs <;> rfl

/-- Step equation: valid offer with an unseen key. -/
theorem processStep_valid_new (st : ProcState) (o : OfferDict)
    (hv : is_valid_offer o = true) (hk : keyOf o ∉ st.seen) :
    processStep st o =
      { st with offers := st.offers ++ [o], seen := st.seen ++ [keyOf o],
                validCount := st.validCount + 1 } := by
  simp [processStep, hv, hk]

/-- Step equation: valid offer with an already-seen key. -/
theorem processStep_valid_dup (st : ProcState) (o : OfferDict)
    (hv : is_valid_offer o = true) (hk : keyOf o ∈ st.seen) :
    processStep st o = { st with duplicateCount := st.duplicateCount + 1 } := by
  simp [processStep, hv, hk]

/-- Step equation: invalid offer. -/
theorem processStep_invalid (st : ProcState) (o : OfferDict)
    (hv : is_valid_offer o = false) :
    processStep st o = st := by
  simp [processStep, hv]

/-- Selection of the offers with a given key from the loop output:
starting from a state whose seen set is exactly the key set of its
offers, the output offers with key k are those already in the state
followed (when k is not yet seen) by the first valid candidate in the
remaining input carrying key k. -/
theorem foldl_filter_key (k : String) :
    ∀ (l : List OfferDict) (st : ProcState),
      (∀ x, x ∈ st.seen ↔ x ∈ st.offers.map keyOf) →
      ((l.foldl processStep st).offers.filter (fun o => keyOf o == k)) =
        st.offers.filter (fun o => keyOf o == k) ++
          (if k ∈ st.seen then []
           else (l.find? (fun o => is_valid_offer o && (keyOf o == k))).toList) := by
  intro l
  induction l with
  | nil =>
    intro st hseen
    by_cases hk : k ∈ st.seen <;> simp [hk]
  | cons o t ih =>
    intro st hseen
    rw [List.foldl_cons]
    by_cases hv : is_valid_offer o = true
    · by_cases hk : keyOf o ∈ st.seen
      · rw [processStep_valid_dup st o hv hk]
        rw [ih { st with duplicateCount := st.duplicateCount + 1 } hseen]
        by_cases hks : k ∈ st.seen
        · simp [hks]
        · have hko : ¬ keyOf o = k := fun h => hks (h ▸ hk)
          have hpred : ¬(is_valid_offer o && (keyOf o == k)) = true := by
            simp [hko]
          rw [List.find?_cons_of_neg t hpred]
      · rw [processStep_valid_new st o hv hk]
        rw [ih { st with offers := st.offers ++ [o], seen := st.seen ++ [keyOf o],
                         validCount := st.validCount + 1 }
              (by intro x; simp [List.mem_append, hseen x])]
        rw [List.filter_append]
        by_cases hko : keyOf o = k
        · subst hko
          have hfil : [o].filter (fun x => keyOf x == keyOf o) = [o] := by simp
          have hmem : keyOf o ∈ st.seen ++ [keyOf o] := by simp
          have hpred : (is_valid_offer o && (keyOf o == keyOf o)) = true := by simp [hv]
          rw [List.find?_cons_of_pos t hpred, hfil]
          simp [hmem, hk]
        · have hfil : [o].filter (fun x => keyOf x == k) = [] := by simp [hko]
          have hmem : (k ∈ st.seen ++ [keyOf o]) ↔ k ∈ st.seen := by
            have hne : ¬ k = keyOf o := fun h => hko h.symm
            simp [List.mem_append, hne]
          have hpred : ¬(is_valid_offer o && (keyOf o == k)) = true := by simp [hko]
          rw [List.find?_cons_of_neg t hpred, hfil, List.append_nil]
          by_cases hks : k ∈ st.seen
          · simp [hks, hmem]
          · simp [hks, hmem]
    · have hvf : is_valid_offer o = false := by rwa [Bool.not_eq_true] at hv
      rw [processStep_invalid st o hvf, ih st hseen]
      have hpred : ¬(is_valid_offer o && (keyOf o == k)) = true := by simp [hvf]
      rw [List.find?_cons_of_neg t hpred]

/-- The loop preserves both the no-duplicate-keys invariant of the offer
list and the agreement between the seen set and the offer keys. -/
theorem foldl_nodup :
    ∀ (l : List OfferDict) (st : ProcState),
      (∀ x, x ∈ st.seen ↔ x ∈ st.offers.map keyOf) →
      ((st.offers.map keyOf).Nodup) →
      ((l.foldl processStep st).offers.map keyOf).Nodup := by
  intro l
  induction l with
  | nil => intro st _ hnd; exact hnd
  | cons o t ih =>
    intro st hseen hnd
    rw [List.foldl_cons]
    by_cases hv : is_valid_offer o = true
    · by_cases hk : keyOf o ∈ st.seen
      · rw [processStep_valid_dup st o hv hk]
        exact ih _ hseen hnd
      · rw [processStep_valid_new st o hv hk]
        apply ih
        · intro x; simp [List.mem_append, hseen x]
        · show ((st.offers ++ [o]).map keyOf).Nodup
          rw [List.map_append, List.nodup_append]
          refine ⟨hnd, by simp, ?_⟩
          simp only [List.map_cons, List.map_nil, List.disjoint_singleton]
          exact fun hmem => hk ((hseen _).mpr hmem)
    · rw [processStep_invalid st o (by rwa [Bool.not_eq_true] at hv)]
      exact ih st hseen hnd

/-- Accounting of the loop: valid_count grows exactly with the offer
list, and valid_count plus duplicate_count counts exactly the candidates
passing validation. -/
theorem foldl_counts :
    ∀ (l : List OfferDict) (st : ProcState),
      (l.foldl processStep st).validCount + st.offers.length =
        st.validCount + (l.foldl processStep st).offers.length ∧
      (l.foldl processStep st).validCount + (l.foldl processStep st).duplicateCount =
        st.validCount + st.duplicateCount + (l.filter (fun o => is_valid_offer o)).length := by
  intro l
  induction l with
  | nil => intro st; constructor <;> simp
  | cons o t ih =>
    intro st
    rw [List.foldl_cons]
    by_cases hv : is_valid_offer o = true
    · have hfil : (o :: t).filter (fun x => is_valid_offer x) =
          o :: t.filter (fun x => is_valid_offer x) :=
        List.filter_cons_of_pos hv
      by_cases hk : keyOf o ∈ st.seen
      · rw [processStep_valid_dup st o hv hk, hfil]
        obtain ⟨ha, hb⟩ := ih { st with duplicateCount := st.duplicateCount + 1 }
        dsimp only at ha hb ⊢
        constructor
        · omega
        · rw [List.length_cons]; omega
      · rw [processStep_valid_new st o hv hk, hfil]
        obtain ⟨ha, hb⟩ := ih { st with offers := st.offers ++ [o],
                                        seen := st.seen ++ [keyOf o],
                                        validCount := st.validCount + 1 }
        dsimp only at ha hb ⊢
        simp only [List.length_append, List.length_singleton] at ha
        constructor
        · omega
        · rw [List.length_cons]; omega
    · have hvf : is_valid_offer o = false := by rwa [Bool.not_eq_true] at hv
      have hfil : (o :: t).filter (fun x => is_valid_offer x) =
          t.filter (fun x => is_valid_offer x) :=
        List.filter_cons_of_neg (by simp [hvf])
      rw [processStep_invalid st o hvf, hfil]
      exact ih st

/-- Survivor characterization of the gate: the output offers with key k
are exactly the first candidate in input order that passes validation and
carries key k. -/
theorem processProducts_filter_key (l : List OfferDict) (k : String) :
    (processProducts l).offers.filter (fun o => keyOf o == k) =
      (l.find? (fun o => is_valid_offer o && (keyOf o == k))).toList := by
  have h := foldl_filter_key k l ⟨[], [], 0, 0⟩ (by intro x; simp)
  simpa [processProducts] using h

/-- The gate never outputs two offers with the same key. -/
theorem processProducts_nodup (l : List OfferDict) :
    ((processProducts l).offers.map keyOf).Nodup :=
  foldl_nodup l ⟨[], [], 0, 0⟩ (by intro x; simp) (by simp)

/-- Counting: valid_count is the output length, and every candidate that
passes validation is either output or counted as a duplicate. -/
theorem processProducts_counts (l : List OfferDict) :
    (processProducts l).validCount = (processProducts l).offers.length ∧
    (processProducts l).validCount + (processProducts l).duplicateCount =
      (l.filter (fun o => is_valid_offer o)).length := by
  have h := foldl_counts l ⟨[], [], 0, 0⟩
  obtain ⟨ha, hb⟩ := h
  simp only [processProducts]
  constructor
  · simpa using ha
  · simpa using hb

/-- Any persisted products list has pairwise distinct product keys. -/
theorem process_offer_products_nodup (inp : JobInput) (ps : List OfferDict)
    (h : (process_offer inp).result.products = some ps) :
    (ps.map keyOf).Nodup := by
  simp only [process_offer] at h
  split at h
  · exact absurd h (by simp)
  · split at h
    · split at h
      · split at h
        · obtain rfl : [singleOffer] = ps := by simpa using h
          simp
        · obtain rfl : ([] : List OfferDict) = ps := by simpa using h
          simp
      · exact absurd h (by simp)
    · obtain rfl : (processProducts (((allProducts inp).filter inp.constructOk).map mkOffer)).offers = ps := by
        simpa using h
      exact processProducts_nodup _

/-! Claim theorems. -/

/-- C1 counterexample: on a raw candidate with every field absent, the
final normalized Offer record holds the number 0 for price_per_unit and
unit_volume_ml (and not an absent marker), refuting the sentinel claim at
the Offer level. -/
theorem c1_sentinel_counterexample :
    (mkOffer (clean_product_data rawEmpty)).price_per_unit = some 0 ∧
    (mkOffer (clean_product_data rawEmpty)).price_per_case = some 0 ∧
    (mkOffer (clean_product_data rawEmpty)).unit_volume_ml = some 0 ∧
    (mkOffer (clean_product_data rawEmpty)).units_per_case = some 0 := by
  decide

/-- C1 (amended): for each of the nine numeric fields, a raw value of 0,
"0", "" or absent cleans to the absent marker None in clean_product_data;
the processor then keeps the absent marker for cases_per_pallet,
quantity_case and moq_cases, but replaces it by the number 0 for
unit_volume_ml, units_per_case and the four price fields in the final
Offer record. -/
theorem c1_sentinel_amended (r : RawProduct) :
    (absentish r.price_per_unit →
      (clean_product_data r).price_per_unit = none ∧
      (mkOffer (clean_product_data r)).price_per_unit = some 0) ∧
    (absentish r.price_per_case →
      (clean_product_data r).price_per_case = none ∧
      (mkOffer (clean_product_data r)).price_per_case = some 0) ∧
    (absentish r.price_per_unit_eur →
      (clean_product_data r).price_per_unit_eur = none ∧
      (mkOffer (clean_product_data r)).price_per_unit_eur = some 0) ∧
    (absentish r.price_per_case_eur →
      (clean_product_data r).price_per_case_eur = none ∧
      (mkOffer (clean_product_data r)).price_per_case_eur = some 0) ∧
    (absentish r.unit_volume_ml →
      (clean_product_data r).unit_volume_ml = none ∧
      (mkOffer (clean_product_data r)).unit_volume_ml = some 0) ∧
    (absentish r.units_per_case →
      (clean_product_data r).units_per_case = none ∧
      (mkOffer (clean_product_data r)).units_per_case = some 0) ∧
    (absentish r.cases_per_pallet →
      (clean_product_data r).cases_per_pallet = none ∧
      (mkOffer (clean_product_data r)).cases_per_pallet = none) ∧
    (absentish r.quantity_case →
      (clean_product_data r).quantity_case = none ∧
      (mkOffer (clean_product_data r)).quantity_case = none) ∧
    (absentish r.moq_cases →
      (clean_product_data r).moq_cases = none ∧
      (mkOffer (clean_product_data r)).moq_cases = none) := by
  obtain ⟨h1, h2, h3, h4, h5, h6, h7, h8, h9⟩ := clean_numeric_fields r
  refine ⟨fun h => ?_, fun h => ?_, fun h => ?_, fun h => ?_, fun h => ?_,
          fun h => ?_, fun h => ?_, fun h => ?_, fun h => ?_⟩ <;>
    · have hc := cleanNumeric_absentish _ h
      constructor
      · simp [h1, h2, h3, h4, h5, h6, h7, h8, h9, hc, dropZero]
      · simp [mkOffer, safe_float, h1, h2, h3, h4, h5, h6, h7, h8, h9, hc, dropZero]

/-- C1 witness: the amended sentinel statement applied to the all-absent
raw candidate, price_per_unit field. -/
theorem c1_sentinel_amended_witness :
    (clean_product_data rawEmpty).price_per_unit = none ∧
    (mkOffer (clean_product_data rawEmpty)).price_per_unit = some 0 :=
  (c1_sentinel_amended rawEmpty).1 (Or.inl rfl)

/-- C7: the product_key derivation from product_name never fires.  On a
raw candidate whose product_key is absent (or explicitly blank) and whose
product_name is present, clean_product_data leaves product_key as the
placeholder "Not Found" instead of the derived key, because the guard
compares the cleaned key (already defaulted to "Not Found") against the
empty string.  The derivation function itself would have produced
"ABSOLUT_VODKA". -/
theorem c7_key_derivation_dead :
    (clean_product_data rawAbsolut).product_key = "Not Found" ∧
    (clean_product_data rawAbsolutEmptyKey).product_key = "Not Found" ∧
    (mkOffer (clean_product_data rawAbsolut)).product_key = some "Not Found" ∧
    deriveKey "Absolut Vodka" = "ABSOLUT_VODKA" ∧
    ("Not Found" : String) ≠ "ABSOLUT_VODKA" := by
  refine ⟨by decide, by decide, by decide, ?_, by decide⟩
  rfl

/-- C8: clean_product_data stores alcohol_percent as a float or None,
never as a formatted percentage string: the formatted input "43%" fails
the float conversion and is destroyed to None, while the bare number 43
is kept as the number 43. -/
theorem c8_alcohol_not_percent_string :
    (clean_product_data rawAlcPct).alcohol_percent = none ∧
    (clean_product_data rawAlcNum).alcohol_percent = some 43 ∧
    (mkOffer (clean_product_data rawAlcNum)).alcohol_percent = some 43 := by
  decide

/-- C9: a missing or blank refillable_status does not normalize to an
absent marker: clean_product_data defaults it to the legal value "NRF",
and the processor keeps that value in the final Offer record. -/
theorem c9_refillable_defaults_nrf :
    (clean_product_data rawEmpty).refillable_status = "NRF" ∧
    (clean_product_data rawBlankRef).refillable_status = "NRF" ∧
    (mkOffer (clean_product_data rawEmpty)).refillable_status = some "NRF" ∧
    ("NRF" : String) ≠ "" := by
  decide

/-- C2 counterexample: two candidates with the same product_key, the
first valid and the second failing validation, are fed in input order:
the first is the sole survivor but duplicate_count stays 0 — the later
same-key occurrence is counted as a validation rejection, not as a
duplicate, refuting the claim that each later occurrence increments
duplicate_count by one. -/
theorem c2_dedup_counterexample :
    keyOf c2OfferA = keyOf c2OfferB ∧
    is_valid_offer c2OfferA = true ∧
    is_valid_offer c2OfferB = false ∧
    (processProducts [c2OfferA, c2OfferB]).offers = [c2OfferA] ∧
    (processProducts [c2OfferA, c2OfferB]).duplicateCount = 0 := by
  decide

/-- C2 (amended): no persisted products list carries two offers with the
same product_key; among candidates passing validation, the survivor with
key k is exactly the first validation-passing candidate in input order
carrying key k, regardless of the rest; and valid_count plus
duplicate_count counts exactly the validation-passing candidates, so
every later validation-passing occurrence of a seen key increments
duplicate_count — candidates failing validation are rejected before the
dedup check and affect neither count. -/
theorem c2_dedup_amended :
    (∀ (inp : JobInput) (ps : List OfferDict),
        (process_offer inp).result.products = some ps → (ps.map keyOf).Nodup) ∧
    (∀ (l : List OfferDict) (k : String),
        (processProducts l).offers.filter (fun o => keyOf o == k) =
          (l.find? (fun o => is_valid_offer o && (keyOf o == k))).toList) ∧
    (∀ l : List OfferDict,
        (processProducts l).validCount = (processProducts l).offers.length ∧
        (processProducts l).validCount + (processProducts l).duplicateCount =
          (l.filter (fun o => is_valid_offer o)).length) :=
  ⟨fun inp ps h => process_offer_products_nodup inp ps h,
   fun l k => processProducts_filter_key l k,
   fun l => processProducts_counts l⟩

/-- C2 witness: the persisted products of the job feeding the two
same-key candidates have pairwise distinct keys. -/
theorem c2_dedup_amended_witness :
    (((processProducts [c2OfferA, c2OfferB]).offers).map keyOf).Nodup :=
  c2_dedup_amended.1 c2wInput ((processProducts [c2OfferA, c2OfferB]).offers) (by decide)

/-- C3: the validation gate accepts an offer exactly when its
product_name is present and not a placeholder (not the absent sentinel,
not a Row N filler, not the reserved unknown strings) and at least one of
price_per_unit or price_per_case is present and non-zero. -/
theorem c3_validation_gate (o : OfferDict) :
    is_valid_offer o = true ↔ namePresentNotPlaceholder o ∧ hasPriceSignal o := by
  unfold is_valid_offer namePresentNotPlaceholder hasPriceSignal
  cases ho : o.product_name with
  | none => simp
  | some name =>
    by_cases h1 : name = "" ∨ name = "Not Found" ∨ name = "Unknown" ∨ name = "Row"
    · simp only [if_pos h1]
      constructor
      · intro h; exact absurd h (by simp)
      · rintro ⟨⟨n, hn, hne, hnf, hnu, hnr, _⟩, _⟩
        obtain rfl : name = n := by injection hn
        rcases h1 with h | h | h | h
        · exact absurd h hne
        · exact absurd h hnf
        · exact absurd h hnu
        · exact absurd h hnr
    · simp only [if_neg h1]
      push_neg at h1
      obtain ⟨hne, hnf, hnu, hnr⟩ := h1
      by_cases h2 : pyStartsWith (lowerString name) "row " = true
      · simp only [h2, if_true]
        constructor
        · intro h; exact absurd h (by simp)
        · rintro ⟨⟨n, hn, _, _, _, _, hrow⟩, _⟩
          obtain rfl : name = n := by injection hn
          rw [h2] at hrow
          exact absurd hrow (by simp)
      · rw [Bool.not_eq_true] at h2
        simp only [h2, Bool.false_eq_true, if_false]
        by_cases h3 : (o.price_per_unit = none ∨ o.price_per_unit = some 0) ∧
            (o.price_per_case = none ∨ o.price_per_case = some 0)
        · simp only [if_pos h3]
          constructor
          · intro h; exact absurd h (by simp)
          · rintro ⟨_, hsig⟩
            rcases hsig with ⟨q, hq, hq0⟩ | ⟨q, hq, hq0⟩
            · rcases h3.1 with h | h
              · rw [hq] at h; exact Option.noConfusion h
              · rw [hq] at h; injection h with h; exact (hq0 h).elim
            · rcases h3.2 with h | h
              · rw [hq] at h; exact Option.noConfusion h
              · rw [hq] at h; injection h with h; exact (hq0 h).elim
        · simp only [if_neg h3]
          constructor
          · intro _
            refine ⟨⟨name, rfl, hne, hnf, hnu, hnr, h2⟩, ?_⟩
            rcases not_and_or.mp h3 with h | h
            · exact Or.inl ((price_empty_iff _).mp h)
            · exact Or.inr ((price_empty_iff _).mp h)
          · intro _; trivial

/-- C4: the currency-normalization step is the identity copy of the
price fields into the EUR fields when the currency is EUR, blank or the
absent placeholder; for any other currency a present non-zero price is
multiplied by the resolved rate and rounded to two decimals; and a price
field that is absent (with its EUR field absent) leaves the EUR field
absent, for every currency. -/
theorem c4_currency_conversion (p : CleanedProduct) (rate : ℚ) :
    ((p.currency = "Not Found" ∨ p.currency = "" ∨ p.currency = "EUR") →
      (convertPrices rate p).price_per_unit_eur = p.price_per_unit ∧
      (convertPrices rate p).price_per_case_eur = p.price_per_case) ∧
    (¬(p.currency = "Not Found" ∨ p.currency = "" ∨ p.currency = "EUR") →
      (∀ q, p.price_per_unit = some q → q ≠ 0 →
        (convertPrices rate p).price_per_unit_eur = some (round2 (q * rate))) ∧
      (∀ q, p.price_per_case = some q → q ≠ 0 →
        (convertPrices rate p).price_per_case_eur = some (round2 (q * rate)))) ∧
    (p.price_per_unit = none → p.price_per_unit_eur = none →
      (convertPrices rate p).price_per_unit_eur = none) ∧
    (p.price_per_case = none → p.price_per_case_eur = none →
      (convertPrices rate p).price_per_case_eur = none) := by
  unfold convertPrices
  by_cases hc : p.currency = "Not Found" ∨ p.currency = "" ∨ p.currency = "EUR"
  · simp only [if_pos hc]
    refine ⟨fun _ => ⟨by trivial, by trivial⟩, fun h => absurd hc h,
            fun h _ => by simpa using h, fun h _ => by simpa using h⟩
  · simp only [if_neg hc]
    refine ⟨fun h => absurd h hc, fun _ => ⟨?_, ?_⟩, ?_, ?_⟩
    · intro q hq hq0
      have hcond : ¬(p.price_per_unit = none ∨ p.price_per_unit = some 0) := by
        rw [hq]; simp [hq0]
      simp [hcond, convert_price_to_eur, hq, hq0]
    · intro q hq hq0
      have hcond : ¬(p.price_per_case = none ∨ p.price_per_case = some 0) := by
        rw [hq]; simp [hq0]
      simp [hcond, convert_price_to_eur, hq, hq0]
    · intro h he
      have hcond : p.price_per_unit = none ∨ p.price_per_unit = some 0 := Or.inl h
      simp [hcond, he]
    · intro h he
      have hcond : p.price_per_case = none ∨ p.price_per_case = some 0 := Or.inl h
      simp [hcond, he]

/-- C4 witness: a USD offer with unit price 10 and rate 9/10 converts to
a EUR unit price of round2 of 9. -/
theorem c4_currency_conversion_witness :
    (convertPrices (9/10) (clean_product_data rawUSD)).price_per_unit_eur =
      some (round2 (10 * (9/10))) :=
  ((c4_currency_conversion (clean_product_data rawUSD) (9/10)).2.1
    (by decide)).1 10 (by decide) (by norm_num)

/-- C5 counterexample: a run with no sources whose single-product
construction block raises has accepted zero records, yet it terminates
with job status done and a partial_success result payload rather than
status failed. -/
theorem c5_zero_accepted_counterexample :
    (process_offer c5Input).jobStatus = "done" ∧
    (process_offer c5Input).result.resultStatus = "partial_success" ∧
    (process_offer c5Input).result.products = none ∧
    (process_offer c5Input).jobStatus ≠ "failed" := by
  refine ⟨rfl, rfl, rfl, ?_⟩
  intro h
  rw [show (process_offer c5Input).jobStatus = "done" from rfl] at h
  exact absurd h (by decide)

/-- C5 (amended): job status failed occurs exactly when the exception
escapes to the outer handler; an exception inside the single-product
construction block instead terminates the job with status done and a
partial_success result payload, regardless of whether any record was
accepted. -/
theorem c5_failure_status_amended (inp : JobInput) :
    ((process_offer inp).jobStatus = "failed" ↔ inp.persistRaises = true) ∧
    (inp.persistRaises = false → inp.singleConstructOk = false →
      (allProducts inp).isEmpty = true →
      process_offer inp = ⟨"done", ⟨"partial_success", none, 0⟩⟩) := by
  constructor
  · cases hp : inp.persistRaises
    · rw [process_offer_done inp hp]
      simp
    · unfold process_offer
      rw [hp]
      simp
  · intro hp hs he
    unfold process_offer
    rw [hp, hs]
    simp [he]

/-- C5 witness: the amended failure-status statement applied to the
source-less raising run. -/
theorem c5_failure_status_amended_witness :
    ((process_offer c5Input).jobStatus = "failed" ↔ c5Input.persistRaises = true) ∧
    process_offer c5Input = ⟨"done", ⟨"partial_success", none, 0⟩⟩ :=
  ⟨(c5_failure_status_amended c5Input).1,
   (c5_failure_status_amended c5Input).2 rfl rfl rfl⟩

/-- C6: an attachment whose processing raises is isolated: the candidate
list of the run is exactly the contribution of the text source and of the
remaining attachments, the job still terminates with status done, and
(when any candidate survives) the persisted products are those extracted
from the surviving sources. -/
theorem c6_attachment_isolation (inp : JobInput) (pre post : List AttachResult)
    (hatt : inp.attachments = pre ++ AttachResult.err :: post)
    (hp : inp.persistRaises = false) :
    (process_offer inp).jobStatus = "done" ∧
    allProducts inp = gatherText inp.text ++ (gatherAttach pre ++ gatherAttach post) ∧
    ((allProducts inp).isEmpty = false →
      (process_offer inp).result.products =
        some (processProducts (((allProducts inp).filter inp.constructOk).map mkOffer)).offers) := by
  refine ⟨process_offer_done inp hp, ?_, ?_⟩
  · unfold allProducts gatherAttach
    rw [hatt]
    simp
  · intro hne
    unfold process_offer
    rw [hp]
    simp [hne]

/-- C6 witness: the isolation statement applied to a run with one good
attachment followed by one raising attachment. -/
theorem c6_attachment_isolation_witness :
    (process_offer c6Input).jobStatus = "done" ∧
    allProducts c6Input = gatherText c6Input.text ++
      (gatherAttach [AttachResult.products [convertPrices 1 (clean_product_data rawVodkaPriced)]] ++
        gatherAttach []) ∧
    (process_offer c6Input).result.products =
      some (processProducts (((allProducts c6Input).filter c6Input.constructOk).map mkOffer)).offers := by
  have h := c6_attachment_isolation c6Input
    [AttachResult.products [convertPrices 1 (clean_product_data rawVodkaPriced)]] [] rfl rfl
  exact ⟨h.1, h.2.1, h.2.2 rfl⟩

/-- C10: polling a job whose stored status is done but whose stored
result payload is missing or empty reports status processing to the
consumer. -/
theorem c10_done_reports_processing (res : Option (List (String × String)))
    (h : res = none ∨ res = some []) :
    get_result (some "done") res =
      .ok ⟨"processing", some "Result not yet available"⟩ := by
  rcases h with h | h <;> subst h <;> rfl

/-- C10 witness: the polling theorem applied to the absent payload. -/
theorem c10_done_reports_processing_witness :
    get_result (some "done") none =
      .ok ⟨"processing", some "Result not yet available"⟩ :=
  c10_done_reports_processing none (Or.inl rfl)

end OfferPipeline
